import Mathlib

/-!
Shallow embedding of the DiagnoAI repository (app.py, auth_utils.py,
db_utils.py, ui_utils.py) and proofs about the claims of its
specification.

Conventions of the embedding:
* Machine floats are modelled as exact rationals (`ℚ`); numpy reductions
  (`np.mean`, `np.std`, …) become `Finset` sums.  Comparisons of the form
  `np.std x > t` (with `t ≥ 0`) are embedded as `t² < variance`, which is
  equivalent over the reals; each such spot carries a comment.
* Streamlit's `st.session_state` becomes the explicit record
  `SessionState`; the PostgreSQL table `bbt_user_doctorai` becomes the
  explicit record `Db` (a connection-health flag plus an email-keyed map
  of rows).  Functions that mutate state take and return these records.
* Fallible database calls return `Bool × _` mirroring the `True/False`
  returns of the source.
-/

namespace DiagnoAI

/-! ## Usage / quota state (auth_utils.py, db_utils.py) -/

/-- Constant `FREE_USAGE_LIMIT = 6` from auth_utils.py. -/
def FREE_USAGE_LIMIT : ℕ := 6

/-- Constant `PREMIUM_USAGE_LIMIT = 20` from auth_utils.py. -/
def PREMIUM_USAGE_LIMIT : ℕ := 20

/-- The slice of `st.session_state` that the quota logic reads and writes
(`init_session_state` in auth_utils.py).  `subscription_expires_at` is an
epoch timestamp (the source compares it with
`int(datetime.now().timestamp())`), `none` standing for Python `None`. -/
structure SessionState where
  authenticated : Bool
  user_email : Option String
  paid_user : Bool
  premium_user : Bool
  usage_count : ℕ
  premium_usage_count : ℕ
  subscription_expires_at : Option ℤ
deriving DecidableEq

/-- One row of the `bbt_user_doctorai` table, restricted to the columns the
code reads or writes. -/
structure UserRow where
  usage_count : ℕ
  premium_usage_count : ℕ
  paid_user : Bool
  subscription_expires_at : Option ℤ
deriving DecidableEq

/-- The backing store: whether `get_db_connection()` succeeds, and the
per-email rows of `bbt_user_doctorai`. -/
structure Db where
  connOk : Bool
  users : String → Option UserRow

/-- `get_user_usage_from_db` (db_utils.py lines 28-54): returns the stored
`usage_count`, or `0` when the connection fails or the row is missing. -/
def get_user_usage_from_db (db : Db) (email : String) : ℕ :=
  if db.connOk then
    match db.users email with
    | some row => row.usage_count
    | none => 0
  else 0

/-- `update_user_usage_in_db` (db_utils.py lines 56-92): writes `new_count`
into the user's `usage_count` column; fails (returning `false`, store
unchanged) when the connection fails or the user does not exist. -/
def update_user_usage_in_db (db : Db) (email : String) (newCount : ℕ) :
    Bool × Db :=
  if db.connOk then
    match db.users email with
    | some row =>
        (true,
         { db with
            users := fun e =>
              if e = email then some { row with usage_count := newCount }
              else db.users e })
    | none => (false, db)
  else (false, db)

/-- `increment_usage` (db_utils.py lines 131-153).  For a premium session it
only bumps the in-session `premium_usage_count` and returns `True`.  For a
free session it resolves the email (argument first, session second), reads
the stored count, writes `stored + 1` into the session counter, and then
attempts the database update, returning that update's verdict. -/
def increment_usage (userEmail : Option String) (s : SessionState)
    (db : Db) : Bool × SessionState × Db :=
  if s.paid_user || s.premium_user then
    (true, { s with premium_usage_count := s.premium_usage_count + 1 }, db)
  else
    match (match userEmail with
           | some e => some e
           | none => s.user_email) with
    | none => (false, s, db)
    | some email =>
        let currentDbCount := get_user_usage_from_db db email
        let newCount := currentDbCount + 1
        let s1 := { s with usage_count := newCount }
        let r := update_user_usage_in_db db email newCount
        (r.1, s1, r.2)

/-- The demotion performed by `check_premium_subscription`: both premium
flags are cleared. -/
def demote (s : SessionState) : SessionState :=
  { s with paid_user := false, premium_user := false }

/-- Truthiness of the source guard
`st.session_state.subscription_expires_at and current_time > int(...)`:
the field is either `None` or a genuine (positive) epoch timestamp, so the
guard holds iff the field is set and `now` is strictly past it. -/
def subscriptionExpired (now : ℤ) (s : SessionState) : Bool :=
  match s.subscription_expires_at with
  | some expiresAt => decide (expiresAt < now)
  | none => false

/-- `check_premium_subscription` (auth_utils.py lines 121-138).  `now` is
`int(datetime.now().timestamp())`.  Returns the verdict together with the
updated session state (the source mutates `st.session_state` in place). -/
def check_premium_subscription (now : ℤ) (s : SessionState) :
    Bool × SessionState :=
  if s.paid_user || s.premium_user then
    if subscriptionExpired now s then (false, demote s)
    else if PREMIUM_USAGE_LIMIT ≤ s.premium_usage_count then
      (false, demote s)
    else (true, s)
  else (false, s)

/-- `check_usage_limit` (auth_utils.py lines 151-158): first runs
`check_premium_subscription` (discarding its boolean result but keeping its
state mutation), then re-reads the premium flags and compares the relevant
counter against its limit. -/
def check_usage_limit (now : ℤ) (s : SessionState) : Bool × SessionState :=
  let s1 := (check_premium_subscription now s).2
  if s1.paid_user || s1.premium_user then
    (decide (s1.premium_usage_count < PREMIUM_USAGE_LIMIT), s1)
  else
    (decide (s1.usage_count < FREE_USAGE_LIMIT), s1)

/-- One `recordUsage` step as performed by the app (app.py line 158 calls
`increment_usage()` with no argument), keeping only the resulting state. -/
def recordStep (p : SessionState × Db) : SessionState × Db :=
  ((increment_usage none p.1 p.2).2.1, (increment_usage none p.1 p.2).2.2)

/-- `n` consecutive `recordUsage` steps. -/
def runN (n : ℕ) (p : SessionState × Db) : SessionState × Db :=
  recordStep^[n] p

/-! ## Classification pipeline (app.py lines 42-45 and 189-218)

The two Keras models are external capabilities; a run of the pipeline is
therefore parametrised by their outputs: `multiOut` is
`multi_model.predict(img_array)[0]` (five class probabilities) and
`edemaOut` is `edema_model.predict(img_array)[0][0]` (one probability).
The Streamlit display calls are reified into a `Report` value. -/

/-- `MULTI_CLASS_NAMES` from app.py line 44. -/
def MULTI_CLASS_NAMES : List String :=
  ["Edema", "Normal", "Pneumonia", "Tuberculosis", "Effusion"]

/-- `BINARY_CLASS_NAMES` from app.py line 45 (never indexed by the code:
no displayed label is ever drawn from it). -/
def BINARY_CLASS_NAMES : List String := ["NotEdema", "Edema"]

/-- `np.argmax` over the five primary probabilities: the first index
attaining the maximum (a later index replaces the current best only on a
strictly larger value). -/
def argmax5 (p : Fin 5 → ℚ) : Fin 5 :=
  ([1, 2, 3, 4] : List (Fin 5)).foldl
    (fun best j => if p best < p j then j else best) 0

/-- The class name selected by the primary classifier:
`MULTI_CLASS_NAMES[predicted_class_index]`. -/
def predictedClassName (multiOut : Fin 5 → ℚ) : String :=
  MULTI_CLASS_NAMES.getD (argmax5 multiOut).val ""

/-- Which of the `st.success/st.info/st.warning` annotations accompanies the
displayed prediction (app.py lines 204-218). -/
inductive Note
  /-- `st.info("No signs of disease detected ...")` (line 206). -/
  | noDisease
  /-- `st.warning("Please consult a medical professional ...")`
  (lines 212 and 218). -/
  | consult
  /-- `st.info("A second opinion suggests this is likely not Edema.")`
  (line 215). -/
  | secondOpinionNotEdema
deriving DecidableEq

/-- The rendered prediction: displayed class name, the probability whose
percentage is printed (the source formats `confidence*100`; we keep the raw
probability), whether the confidence came from the specialist second-opinion
model (the "(specialist opinion)" suffix of line 211), and the
accompanying note. -/
structure Report where
  className : String
  confidence : ℚ
  specialist : Bool
  note : Note
deriving DecidableEq

/-- Result of the classification stage: the rendered report plus whether
the secondary Edema model was invoked (`edema_model.predict`, line 198). -/
structure ClassifyResult where
  report : Report
  edemaInvoked : Bool
deriving DecidableEq

/-- The classification stage of `main` (app.py lines 189-218), after the
image has passed the gates: primary argmax selection, conditional secondary
invocation (`edema_prediction` is `None` unless the primary class is
`"Edema"`), and the display branching. -/
def classify (multiOut : Fin 5 → ℚ) (edemaOut : ℚ) : ClassifyResult :=
  let name := predictedClassName multiOut
  let confidence := multiOut (argmax5 multiOut)
  -- `edema_prediction = None`; `if predicted_class_name == 'Edema':
  --    edema_prediction = edema_model.predict(img_array)[0][0]`
  let edemaPrediction : Option ℚ :=
    if name = "Edema" then some edemaOut else none
  let report :=
    if name = "Normal" then
      Report.mk name confidence false Note.noDisease
    else
      -- `if predicted_class_name == 'Edema' and edema_prediction is not None`
      match edemaPrediction with
      | some e =>
          if name = "Edema" then
            if (1 : ℚ)/2 ≤ e then  -- `if edema_prediction >= 0.5`
              Report.mk "Edema" e true Note.consult
            else
              Report.mk name confidence false Note.secondOpinionNotEdema
          else Report.mk name confidence false Note.consult
      | none => Report.mk name confidence false Note.consult
  ClassifyResult.mk report edemaPrediction.isSome

/-! ## Statistics helpers

`np.mean` and the population variance (`np.std` squared, numpy's default
`ddof=0`) over a finite index set, for an arbitrary field so that both the
rational pixel statistics and the real-valued derived quantities use the
same definitions. -/

/-- `np.mean f` over the index set `s`. -/
def fmean {ι : Type} {F : Type} [Field F] (s : Finset ι) (f : ι → F) : F :=
  (∑ i in s, f i) / (s.card : F)

/-- Population variance (`np.std f ** 2`, `ddof = 0`) over `s`. -/
def fvar {ι : Type} {F : Type} [Field F] (s : Finset ι) (f : ι → F) : F :=
  fmean s (fun i => (f i - fmean s f) ^ 2)

/-! ## The X-ray authenticity gate (ui_utils.py lines 328-389)

`is_xray_image` receives the normalized pixel array.  Both call sites in
app.py pass a three-dimensional `(h, w, 3)` array (DICOM frames are stacked
to three channels, `load_img` yields RGB), so the embedding models the
3-D case: an `Image` is an `h × w × c` array of rationals with positive
dimensions.

Comparisons against standard deviations are embedded squared:
for `v = fvar _ _ ≥ 0` and a threshold `t ≥ 0`, `Real.sqrt v > t ↔ v > t²`
and `Real.sqrt v < t ↔ v < t²`, so each such condition is stated on the
variance.  The one quantity that is irreducibly a mean of square roots
(`local_contrast_mean`) is defined over `ℝ`. -/

/-- A normalized pixel array: `h × w × c`, rational intensities.
`pix i j k` is row `i`, column `j`, channel `k`; values at out-of-range
indices are irrelevant to every definition below. -/
structure Image where
  h : ℕ
  w : ℕ
  c : ℕ
  pix : ℕ → ℕ → ℕ → ℚ
  hpos : 0 < h
  wpos : 0 < w
  cpos : 0 < c

/-- The pixel positions of the image, as a product Finset. -/
def Image.pixels (img : Image) : Finset (ℕ × ℕ) :=
  Finset.range img.h ×ˢ Finset.range img.w

/-- `np.mean(img_array, axis=2)` at one pixel: the per-pixel channel
mean. -/
def chanMean (img : Image) (i j : ℕ) : ℚ :=
  fmean (Finset.range img.c) (fun k => img.pix i j k)

/-- The deviation array `img_array - np.mean(img_array, axis=2,
keepdims=True)` at one entry. -/
def chanDev (img : Image) (i j k : ℕ) : ℚ :=
  img.pix i j k - chanMean img i j

/-- `color_variation ** 2` (ui_utils.py line 341): the population variance
of the deviation array over all `(i, j, k)` entries.  The source compares
`np.std(...) > 25`; since both sides are nonnegative this is equivalent to
`colorVariationSq > 625`, which is how the gate below states it. -/
def colorVariationSq (img : Image) : ℚ :=
  fvar (img.pixels ×ˢ Finset.range img.c)
    (fun p => chanDev img p.1.1 p.1.2 p.2)

/-- `gray_img = np.mean(img_array, axis=2)` (line 346): grayscale
reduction by per-pixel channel averaging. -/
def gray (img : Image) (i j : ℕ) : ℚ := chanMean img i j

/-- `mean_intensity = np.mean(gray_img)` (line 351). -/
def meanIntensity (img : Image) : ℚ :=
  fmean img.pixels (fun p => gray img p.1 p.2)

/-- `std_intensity ** 2` (line 352); the condition
`15 < std_intensity < 80` becomes `225 < varIntensity < 6400`. -/
def varIntensity (img : Image) : ℚ :=
  fvar img.pixels (fun p => gray img p.1 p.2)

/-- The grayscale image flattened in row-major (C) order, as numpy's
`np.roll` without an axis flattens it: entry `t` is
`gray (t / w) (t % w)`. -/
def grayFlat (img : Image) (t : ℕ) : ℚ :=
  gray img (t / img.w) (t % img.w)

/-- Total pixel count `h * w` (= `np.prod(gray_img.shape)`). -/
def numPix (img : Image) : ℕ := img.h * img.w

/-- `np.roll(gray_img, s) - gray_img` at flat position `t`: numpy rolls the
flattened array cyclically by `s`, so the rolled entry at `t` is the flat
entry at `(t - s) mod (h*w)`. -/
def rollDiff (img : Image) (s : ℤ) (t : ℕ) : ℚ :=
  grayFlat img (((t : ℤ) - s) % (numPix img : ℤ)).toNat - grayFlat img t

/-- The four shift amounts `[1, -1, gray_img.shape[1],
-gray_img.shape[1]]` of line 355. -/
def rollShifts (img : Image) : List ℤ :=
  [1, -1, (img.w : ℤ), -(img.w : ℤ)]

/-- `np.std([...], axis=0) ** 2` at flat position `t` (line 355): the
population variance, across the four shifted difference arrays, of the
values at that position. -/
def localContrastVar (img : Image) (t : ℕ) : ℚ :=
  fvar (Finset.range 4) (fun i => rollDiff img ((rollShifts img).getD i 0) t)

/-- `local_contrast_mean` (line 356): the mean over all positions of the
per-position standard deviation.  A mean of square roots, hence real
valued. -/
noncomputable def localContrastMean (img : Image) : ℝ :=
  fmean (Finset.range (numPix img))
    (fun t => Real.sqrt ((localContrastVar img t : ℚ) : ℝ))

/-- Lower edge of histogram bin `k`: `np.histogram(gray_img, bins=256,
range=(20, 235))` partitions `[20, 235]` into 256 bins of width
`215/256`. -/
def binLo (k : ℕ) : ℚ := 20 + (k : ℚ) * (215 / 256)

/-- Membership of a value in histogram bin `k`: every bin is
closed-open, except the last (`k = 255`) which also contains the right
endpoint `235`; values outside `[20, 235]` fall in no bin. -/
def inBin (k : ℕ) (x : ℚ) : Prop :=
  if k = 255 then binLo 255 ≤ x ∧ x ≤ 235
  else binLo k ≤ x ∧ x < binLo (k + 1)

instance (k : ℕ) (x : ℚ) : Decidable (inBin k x) := by
  unfold inBin; infer_instance

/-- `histogram` (line 360): count of grayscale pixels in bin `k`. -/
def hist (img : Image) (k : ℕ) : ℕ :=
  (img.pixels.filter (fun p => inBin k (gray img p.1 p.2))).card

/-- Length of `smoothed_hist`: `np.convolve(histogram, np.ones(5)/5,
mode='valid')` on 256 bins yields `256 - 5 + 1 = 252` entries. -/
def smLen : ℕ := 252

/-- `smoothed_hist` (line 361): the window-5 moving average (the kernel is
symmetric, so the convolution's reversal is immaterial). -/
def smoothedHist (img : Image) (i : ℕ) : ℚ :=
  (∑ k in Finset.range 5, (hist img (i + k) : ℚ)) / 5

/-- `np.mean(smoothed_hist)`. -/
def smMean (img : Image) : ℚ :=
  fmean (Finset.range smLen) (smoothedHist img)

/-- `np.std(smoothed_hist) ** 2`. -/
def smVar (img : Image) : ℚ :=
  fvar (Finset.range smLen) (smoothedHist img)

/-- Bin `i` qualifies as a peak (line 364):
`smoothed_hist[i] > mean(smoothed) + 0.5 * std(smoothed)`.
With `t := smoothed[i] - mean` and `σ := sqrt smVar ≥ 0`, the condition
`t > σ/2` is equivalent to `t > 0 ∧ 4 t² > σ² = smVar` (squaring both
nonnegative sides), which is the rational form used here. -/
def isPeak (img : Image) (i : ℕ) : Prop :=
  0 < smoothedHist img i - smMean img ∧
    smVar img < 4 * (smoothedHist img i - smMean img) ^ 2

instance (img : Image) (i : ℕ) : Decidable (isPeak img i) := by
  unfold isPeak; infer_instance

/-- `hist_peaks` (line 364): the qualifying smoothed-histogram indices. -/
def histPeaks (img : Image) : Finset ℕ :=
  (Finset.range smLen).filter (isPeak img)

/-- `peak_spread` (line 365): last peak index minus first, `0` when fewer
than two peaks. -/
def peakSpread (img : Image) : ℕ :=
  if h : 1 < (histPeaks img).card then
    (histPeaks img).max' (Finset.card_pos.mp (by omega)) -
      (histPeaks img).min' (Finset.card_pos.mp (by omega))
  else 0

/-- `hist_midpoint = len(smoothed_hist) // 2` (line 368). -/
def histMidpoint : ℕ := smLen / 2

/-- `smoothed_hist[:hist_midpoint]`: entry `i` of the first half. -/
def symFirst (img : Image) (i : ℕ) : ℚ := smoothedHist img i

/-- `smoothed_hist[hist_midpoint:][::-1]`: entry `i` of the reversed second
half, i.e. `smoothed_hist[smLen - 1 - i]`. -/
def symSecond (img : Image) (i : ℕ) : ℚ := smoothedHist img (smLen - 1 - i)

/-- Population variance of the first histogram half. -/
def symVarFirst (img : Image) : ℚ :=
  fvar (Finset.range histMidpoint) (symFirst img)

/-- Population variance of the reversed second histogram half. -/
def symVarSecond (img : Image) : ℚ :=
  fvar (Finset.range histMidpoint) (symSecond img)

/-- Covariance of the two halves (the numerator of
`np.corrcoef(first, second)[0,1]`, per-element). -/
def symCov (img : Image) : ℚ :=
  fmean (Finset.range histMidpoint)
    (fun i =>
      (symFirst img i - fmean (Finset.range histMidpoint) (symFirst img)) *
      (symSecond img i - fmean (Finset.range histMidpoint) (symSecond img)))

/-- The symmetry condition `symmetry_score > -0.3` (lines 369 and 378),
where `symmetry_score = cov / (sqrt varFirst * sqrt varSecond)`.
When either variance is `0`, `np.corrcoef` divides by zero and yields NaN,
and the IEEE comparison `NaN > -0.3` is false — embedded as the `False`
branch.  Otherwise, with `s := sqrt (varFirst * varSecond) > 0`, the
condition `10 * cov > -3 * s` holds iff `cov ≥ 0` (right side negative) or,
for `cov < 0`, iff `(10 cov)² < (3 s)²`, i.e. `100 cov² < 9 varF varS`. -/
def symmetryOk (img : Image) : Prop :=
  if symVarFirst img = 0 ∨ symVarSecond img = 0 then False
  else 0 ≤ symCov img ∨
    100 * symCov img ^ 2 < 9 * (symVarFirst img * symVarSecond img)

instance (img : Image) : Decidable (symmetryOk img) := by
  unfold symmetryOk; infer_instance

/-- `np.max(histogram)` (line 379). -/
def maxHist (img : Image) : ℕ :=
  Finset.fold max 0 (hist img) (Finset.range 256)

/-- `edge_intensity` (lines 383-385): mean absolute adjacent-column
difference plus mean absolute adjacent-row difference (`np.diff` along each
axis).  For a degenerate single-column or single-row image numpy's mean of
an empty slice is NaN and the comparison `NaN > 30` is false; the rational
convention `0 / 0 = 0` gives the same branch outcome. -/
def edgeIntensity (img : Image) : ℚ :=
  fmean (Finset.range img.h ×ˢ Finset.range (img.w - 1))
    (fun p => |gray img p.1 (p.2 + 1) - gray img p.1 p.2|) +
  fmean (Finset.range (img.h - 1) ×ˢ Finset.range img.w)
    (fun p => |gray img (p.1 + 1) p.2 - gray img p.1 p.2|)

/-- The seven entries of the `conditions` list (lines 372-380), with
standard-deviation comparisons stated on variances as explained above. -/
def xrayConditions (img : Image) : Prop :=
  (20 < meanIntensity img ∧ meanIntensity img < 235) ∧
  (225 < varIntensity img ∧ varIntensity img < 6400) ∧
  (localContrastMean img < 25) ∧
  (2 ≤ (histPeaks img).card) ∧
  (30 < peakSpread img) ∧
  symmetryOk img ∧
  ((maxHist img : ℚ) < (numPix img : ℚ) * (3 / 10))

/-- `is_xray_image` (ui_utils.py lines 328-389) on a 3-D array: reject
immediately when `color_variation > 25` (i.e. its square exceeds 625);
reject when `edge_intensity > 30`; otherwise the verdict is the
conjunction of the seven conditions.  (The source computes the conditions
before the edge check, but all computations are pure, so only the return
structure matters.) -/
def is_xray_image (img : Image) : Prop :=
  if 625 < colorVariationSq img then False
  else if 30 < edgeIntensity img then False
  else xrayConditions img

/-- The specification's description of "color variation", for comparison
with the source's `colorVariationSq`: "per-pixel standard deviation across
channels relative to the per-pixel channel mean" (`Real.sqrt` of the
per-pixel channel variance), "with the standard deviation of that quantity
then taken across the whole image". -/
noncomputable def specColorVariation (img : Image) : ℝ :=
  Real.sqrt
    (fvar img.pixels
      (fun p =>
        Real.sqrt ((fvar (Finset.range img.c) (fun k => img.pix p.1 p.2 k) : ℚ) : ℝ)))

/-! ## The request flow of `main` (app.py lines 151-218)

The slice of `main` that handles a present upload, from the quota check to
the rendered prediction.  The decoded upload is the `Image`; the model
outputs parametrise the run as in `classify`; `now` is the wall-clock
timestamp read by the premium check. -/

/-- How a request ends (the four exit points of app.py lines 151-218). -/
inductive Outcome
  /-- `check_usage_limit()` returned false: "You have reached your usage
  limit ..." (line 154). -/
  | quotaRejected
  /-- `increment_usage()` returned false: "Failed to track usage ..."
  (line 159). -/
  | trackFailed
  /-- `is_xray_image` returned false: "... does not appear to be an X-ray
  image ..." (line 182). -/
  | gateRejected
  /-- The prediction was rendered. -/
  | predicted (r : Report)
deriving DecidableEq

/-- What a request produced: its outcome, and whether each of the two
model capabilities was invoked (`multi_model.predict` line 190,
`edema_model.predict` line 198). -/
structure RunResult where
  outcome : Outcome
  multiInvoked : Bool
  edemaInvoked : Bool
deriving DecidableEq

open Classical in
/-- The upload-handling path of `main` (app.py lines 151-218):
quota check, usage increment, authenticity gate, classification —
in the source's order, with each early `return` reified as an outcome.
Classical choice only decides the (propositional) gate verdict. -/
noncomputable def main_run (now : ℤ) (img : Image) (multiOut : Fin 5 → ℚ)
    (edemaOut : ℚ) (s : SessionState) (db : Db) :
    RunResult × SessionState × Db :=
  let checked := check_usage_limit now s
  if checked.1 = false then
    (RunResult.mk Outcome.quotaRejected false false, checked.2, db)
  else
    let inc := increment_usage none checked.2 db
    if inc.1 = false then
      (RunResult.mk Outcome.trackFailed false false, inc.2.1, inc.2.2)
    else if is_xray_image img then
      let r := classify multiOut edemaOut
      (RunResult.mk (Outcome.predicted r.report) true r.edemaInvoked,
        inc.2.1, inc.2.2)
    else
      (RunResult.mk Outcome.gateRejected false false, inc.2.1, inc.2.2)

/-! ## Concrete fixtures used by counterexamples and witnesses -/

/-- Whether `check_premium_subscription` demotes the session: a premium
flag is set and the subscription is expired or the premium counter is
exhausted.  (Closed form used to describe `check_usage_limit`'s state
effect; not itself a source function.) -/
def demotes (now : ℤ) (s : SessionState) : Bool :=
  (s.paid_user || s.premium_user) &&
    (subscriptionExpired now s ||
      decide (PREMIUM_USAGE_LIMIT ≤ s.premium_usage_count))

/-- A premium session whose subscription expired at time 100, with both
counters still at 0. -/
def sExpired : SessionState :=
  SessionState.mk true (some "u") false true 0 0 (some 100)

/-- A paid premium session with 5 premium uses so far. -/
def sPremium : SessionState :=
  SessionState.mk true (some "u") true false 0 5 none

/-- A healthy store holding user `"u"` with 5 stored premium uses. -/
def dbPremium : Db :=
  Db.mk true (fun e => if e = "u" then some (UserRow.mk 0 5 true none) else none)

/-- A fresh free session for user `"u"`. -/
def sFree0 : SessionState :=
  SessionState.mk true (some "u") false false 0 0 none

/-- A healthy store holding a fresh row for user `"u"`. -/
def dbOk0 : Db :=
  Db.mk true (fun e => if e = "u" then some (UserRow.mk 0 0 false none) else none)

/-- A Free session for user `"u"` whose free quota is exhausted
(`usage_count = 6`). -/
def sUsed6 : SessionState :=
  SessionState.mk true (some "u") false false 6 0 none

/-- A store whose connection is down. -/
def dbDown : Db := Db.mk false (fun _ => none)

/-- Primary-model output whose top class is index 0 (`"Edema"`). -/
def mEdema : Fin 5 → ℚ := ![9/10, 1/100, 2/100, 3/100, 4/100]

/-- An all-black 2×2×3 image: every histogram bin of `[20, 235]` is empty,
so both smoothed-histogram halves are identically zero. -/
def imgBlack : Image :=
  Image.mk 2 2 3 (fun _ _ _ => 0) (by norm_num) (by norm_num) (by norm_num)

/-- A 1×2×3 image whose second pixel is pure blue `(0, 0, 255)`: its
per-pixel channel spread is large, so every variant of "color variation"
far exceeds 25. -/
def imgBlue : Image :=
  Image.mk 1 2 3 (fun _ j k => if j = 1 ∧ k = 2 then 255 else 0)
    (by norm_num) (by norm_num) (by norm_num)

/-! ## Quota-controller theorems (claims C2, C3, C7, C9, C10) -/

/-- C2, counterexample.  A Premium identity whose subscription expired
(`expiresAt = 100 < now = 200`) and whose `premiumCount = 0 < 20`:
`checkAllowed` (= `check_usage_limit`) returns TRUE, because after the
demotion the session falls through to the Free rule and the free counter
is still below 6 — refuting "checkAllowed returns false". -/
theorem expired_premium_checkAllowed_true :
    sExpired.premium_user = true ∧
    sExpired.premium_usage_count < PREMIUM_USAGE_LIMIT ∧
    sExpired.subscription_expires_at = some 100 ∧ (100 : ℤ) < 200 ∧
    (check_usage_limit 200 sExpired).1 = true := by
  refine ⟨rfl, by decide, rfl, by decide, ?_⟩
  decide

/-- C2, amended.  For a Premium identity whose subscription has expired,
the premium check returns false (even if `premiumCount < 20`) and demotes
the identity to Free; `checkAllowed` itself then applies the Free rule, so
its verdict is `freeCount < 6` rather than unconditionally false. -/
theorem expired_premium_demoted_free_rule (now : ℤ) (s : SessionState)
    (expiresAt : ℤ)
    (hflag : s.paid_user = true ∨ s.premium_user = true)
    (hexp : s.subscription_expires_at = some expiresAt)
    (hlt : expiresAt < now) :
    (check_premium_subscription now s).1 = false ∧
    (check_usage_limit now s).2 = demote s ∧
    (check_usage_limit now s).1 = decide (s.usage_count < FREE_USAGE_LIMIT) := by
  unfold check_usage_limit check_premium_subscription subscriptionExpired
  rcases hflag with h | h <;> simp [h, hexp, hlt, demote]

/-- C2, witness for the amended theorem, at the expired fixture. -/
theorem expired_premium_demoted_free_rule_witness :
    (sExpired.paid_user = true ∨ sExpired.premium_user = true) ∧
    sExpired.subscription_expires_at = some 100 ∧ (100 : ℤ) < 200 ∧
    ((check_premium_subscription 200 sExpired).1 = false ∧
     (check_usage_limit 200 sExpired).2 = demote sExpired ∧
     (check_usage_limit 200 sExpired).1 =
       decide (sExpired.usage_count < FREE_USAGE_LIMIT)) :=
  ⟨Or.inr rfl, rfl, by decide,
    expired_premium_demoted_free_rule 200 sExpired 100 (Or.inr rfl) rfl
      (by decide)⟩

/-- C3 (code bug).  For a premium session, `increment_usage` bumps only the
in-session `premium_usage_count` and returns true; the backing store is
returned untouched, so the stored `premium_usage_count` still reads 5 —
contradicting the function's own docstring ("Increment usage count in both
session state and database") and the claim's "persisted". -/
theorem premium_increment_not_persisted :
    increment_usage none sPremium dbPremium =
      (true, { sPremium with premium_usage_count := 6 }, dbPremium) ∧
    (increment_usage none sPremium dbPremium).2.2.users "u" =
      some (UserRow.mk 0 5 true none) :=
  ⟨rfl, rfl⟩

/-- C9, counterexample.  `checkAllowed` is not a side-effect-free read: on
the expired premium fixture it clears the `premium_user` flag. -/
theorem checkAllowed_mutates_state :
    sExpired.premium_user = true ∧
    (check_usage_limit 200 sExpired).2.premium_user = false := by
  exact ⟨rfl, by decide⟩

/-- C9, amended.  `checkAllowed` leaves the counters and the expiry
unchanged and is a pure read on Free identities, but it clears the two
premium flags exactly when the lazy premium check demotes (premium flag
set, and subscription expired or premium counter exhausted). -/
theorem checkAllowed_state_effect (now : ℤ) (s : SessionState) :
    (check_usage_limit now s).2 =
      { s with
          paid_user := s.paid_user && !(demotes now s),
          premium_user := s.premium_user && !(demotes now s) } := by
  unfold check_usage_limit check_premium_subscription demotes demote
  by_cases hf : (s.paid_user || s.premium_user) = true
  · by_cases hE : subscriptionExpired now s = true
    · simp [hf, hE]
    · by_cases hL : PREMIUM_USAGE_LIMIT ≤ s.premium_usage_count
      · simp [hf, hE, hL]
      · simp [hf, hE, hL]
  · simp only [Bool.not_eq_true] at hf
    simp [hf]

/-- C10.  For a Free session with an email, `increment_usage` writes
`stored + 1` into the session counter before attempting the database
update: when that update fails the call returns false, yet the session
counter has been set to the stored count plus one. -/
theorem increment_usage_failure_leaves_session_incremented
    (s : SessionState) (db : Db) (email : String)
    (hp : s.paid_user = false) (hq : s.premium_user = false)
    (he : s.user_email = some email)
    (hfail : (update_user_usage_in_db db email
      (get_user_usage_from_db db email + 1)).1 = false) :
    (increment_usage none s db).1 = false ∧
    (increment_usage none s db).2.1.usage_count =
      get_user_usage_from_db db email + 1 := by
  unfold increment_usage
  simp [hp, hq, he, hfail]

/-- C10, witness: a fresh free session against a store whose connection is
down (`get_user_usage_from_db` reads 0, the update fails). -/
theorem increment_usage_failure_witness :
    sFree0.paid_user = false ∧ sFree0.premium_user = false ∧
    sFree0.user_email = some "u" ∧
    (update_user_usage_in_db dbDown "u"
      (get_user_usage_from_db dbDown "u" + 1)).1 = false ∧
    ((increment_usage none sFree0 dbDown).1 = false ∧
     (increment_usage none sFree0 dbDown).2.1.usage_count =
       get_user_usage_from_db dbDown "u" + 1) :=
  ⟨rfl, rfl, rfl, rfl,
    increment_usage_failure_leaves_session_incremented sFree0 dbDown "u"
      rfl rfl rfl rfl⟩

/-- Invariant of the Free-tier usage loop: starting from a fresh Free
session for `email` over a healthy store holding a fresh row, after `k`
`recordUsage` steps the session is still Free with counter `k`, the store
is still healthy and holds the row with stored count `k`, and the next
`increment_usage` call succeeds. -/
theorem runN_free_invariant (email : String) (row : UserRow)
    (s0 : SessionState) (db0 : Db)
    (hp : s0.paid_user = false) (hq : s0.premium_user = false)
    (he : s0.user_email = some email) (hu : s0.usage_count = 0)
    (hc : db0.connOk = true) (hr : db0.users email = some row)
    (hrow : row.usage_count = 0) :
    ∀ k : ℕ,
      (runN k (s0, db0)).1.paid_user = false ∧
      (runN k (s0, db0)).1.premium_user = false ∧
      (runN k (s0, db0)).1.user_email = some email ∧
      (runN k (s0, db0)).1.usage_count = k ∧
      (runN k (s0, db0)).2.connOk = true ∧
      (runN k (s0, db0)).2.users email = some { row with usage_count := k } ∧
      (increment_usage none (runN k (s0, db0)).1 (runN k (s0, db0)).2).1 =
        true := by
  intro k
  induction k with
  | zero =>
      have hrow0 : ({ row with usage_count := 0 } : UserRow) = row := by
        cases row; simp_all
      refine ⟨hp, hq, he, hu, hc, by simp [runN, hrow0, hr], ?_⟩
      simp [runN, increment_usage, hp, hq, he, get_user_usage_from_db,
        update_user_usage_in_db, hc, hr]
  | succ k ih =>
      obtain ⟨ih1, ih2, ih3, ih4, ih5, ih6, _⟩ := ih
      have hstep : runN (k + 1) (s0, db0) = recordStep (runN k (s0, db0)) := by
        unfold runN
        rw [Function.iterate_succ_apply']
      rw [hstep]
      unfold recordStep increment_usage
      simp only [ih1, ih2, ih3, Bool.or_self, Bool.false_eq_true, if_false,
        ite_false]
      simp [get_user_usage_from_db, update_user_usage_in_db, ih5, ih6, ih4,
        increment_usage]

/-- C7.  For a fresh Free identity over a healthy store: `checkAllowed` is
true before each of the first six `recordUsage` calls, each of those calls
succeeds and persists the incremented stored count (`k` becomes `k + 1` in
the store and in the session), and after exactly six calls the seventh
`checkAllowed` returns false. -/
theorem free_quota_six_uses (now : ℤ) (email : String) (row : UserRow)
    (s0 : SessionState) (db0 : Db)
    (hp : s0.paid_user = false) (hq : s0.premium_user = false)
    (he : s0.user_email = some email) (hu : s0.usage_count = 0)
    (hc : db0.connOk = true) (hr : db0.users email = some row)
    (hrow : row.usage_count = 0) :
    (∀ k, k < 6 →
      (check_usage_limit now (runN k (s0, db0)).1).1 = true) ∧
    (∀ k, k < 6 →
      (increment_usage none (runN k (s0, db0)).1 (runN k (s0, db0)).2).1 =
        true ∧
      (runN (k + 1) (s0, db0)).2.users email =
        some { row with usage_count := k + 1 } ∧
      (runN (k + 1) (s0, db0)).1.usage_count = k + 1) ∧
    (check_usage_limit now (runN 6 (s0, db0)).1).1 = false := by
  have inv := runN_free_invariant email row s0 db0 hp hq he hu hc hr hrow
  have hcheck : ∀ k : ℕ,
      (check_usage_limit now (runN k (s0, db0)).1).1 =
        decide (k < FREE_USAGE_LIMIT) := by
    intro k
    obtain ⟨h1, h2, _, h4, _, _, _⟩ := inv k
    unfold check_usage_limit check_premium_subscription
    simp [h1, h2, h4]
  refine ⟨fun k hk => ?_, fun k hk => ?_, ?_⟩
  · rw [hcheck k]
    simpa [FREE_USAGE_LIMIT] using hk
  · obtain ⟨_, _, _, _, _, _, h7⟩ := inv k
    obtain ⟨_, _, _, g4, _, g6, _⟩ := inv (k + 1)
    exact ⟨h7, g6, g4⟩
  · rw [hcheck 6]
    simp [FREE_USAGE_LIMIT]

/-- C7, witness: the fresh fixture `sFree0`/`dbOk0` satisfies every
hypothesis, the first call is allowed and the seventh is blocked. -/
theorem free_quota_six_uses_witness :
    sFree0.paid_user = false ∧ sFree0.usage_count = 0 ∧
    dbOk0.connOk = true ∧ dbOk0.users "u" = some (UserRow.mk 0 0 false none) ∧
    (check_usage_limit 0 (runN 0 (sFree0, dbOk0)).1).1 = true ∧
    (runN 6 (sFree0, dbOk0)).2.users "u" =
      some (UserRow.mk 6 0 false none) ∧
    (check_usage_limit 0 (runN 6 (sFree0, dbOk0)).1).1 = false := by
  have h := free_quota_six_uses 0 "u" (UserRow.mk 0 0 false none) sFree0 dbOk0
    rfl rfl rfl rfl rfl (by simp [dbOk0]) rfl
  exact ⟨rfl, rfl, rfl, by simp [dbOk0], h.1 0 (by norm_num),
    (h.2.1 5 (by norm_num)).2.1, h.2.2⟩

/-! ## Classification-pipeline theorems (claims C6, C8) -/

/-- C8.  The secondary binary classifier is invoked if and only if the
primary classifier's top class is `"Edema"`; in particular it is never
invoked when the top class is `"Normal"` or any other class. -/
theorem secondary_invoked_iff_primary_edema (multiOut : Fin 5 → ℚ)
    (edemaOut : ℚ) :
    (classify multiOut edemaOut).edemaInvoked =
      decide (predictedClassName multiOut = "Edema") := by
  unfold classify
  by_cases h : predictedClassName multiOut = "Edema" <;> simp [h]

/-- C6.  When the primary classifier selects `"Edema"` (so the secondary
runs): with secondary probability ≥ 0.5 the report is `"Edema"` with the
secondary's confidence, flagged as the specialist opinion; with secondary
probability < 0.5 the report keeps class `"Edema"` (never `"NotEdema"`)
with the primary's confidence, annotated with the disagreeing
second-opinion note. -/
theorem edema_second_opinion_policy (multiOut : Fin 5 → ℚ) (edemaOut : ℚ)
    (hname : predictedClassName multiOut = "Edema") :
    ((1 : ℚ)/2 ≤ edemaOut →
      (classify multiOut edemaOut).report =
        Report.mk "Edema" edemaOut true Note.consult) ∧
    (edemaOut < 1/2 →
      (classify multiOut edemaOut).report =
        Report.mk "Edema" (multiOut (argmax5 multiOut)) false
          Note.secondOpinionNotEdema) := by
  have hne : predictedClassName multiOut ≠ "Normal" := by
    rw [hname]; decide
  constructor <;> intro hb
  · simp only [classify, hname, if_pos rfl, if_neg hne, ite_true]
    simp [hb]
    linarith
  · simp only [classify, hname, if_pos rfl, if_neg hne, ite_true]
    simp [not_le.mpr hb, hname]
    linarith

/-- C6, witness: primary top class `"Edema"` at probability 9/10 and a
disagreeing secondary at 3/10 — the report stays `"Edema"` with the
primary confidence and the disagreement note. -/
theorem edema_second_opinion_policy_witness :
    predictedClassName mEdema = "Edema" ∧ (3 : ℚ)/10 < 1/2 ∧
    (classify mEdema (3/10)).report =
      Report.mk "Edema" (mEdema (argmax5 mEdema)) false
        Note.secondOpinionNotEdema := by
  have hname : predictedClassName mEdema = "Edema" := by
    norm_num [predictedClassName, argmax5, mEdema, MULTI_CLASS_NAMES]
  exact ⟨hname, by norm_num,
    (edema_second_opinion_policy mEdema (3/10) hname).2 (by norm_num)⟩

/-! ## Statistics lemmas for the gate theorems -/

theorem fmean_cast {ι : Type} (s : Finset ι) (f : ι → ℚ) :
    ((fmean s f : ℚ) : ℝ) = fmean s (fun i => ((f i : ℚ) : ℝ)) := by
  unfold fmean
  push_cast
  ring

theorem fvar_eq_sub {ι : Type} {F : Type} [Field F] (s : Finset ι)
    (f : ι → F) (hn : (s.card : F) ≠ 0) :
    fvar s f = fmean s (fun i => f i ^ 2) - (fmean s f) ^ 2 := by
  unfold fvar fmean
  have hexp : ∀ i ∈ s,
      (f i - (∑ j in s, f j) / (s.card : F)) ^ 2 =
        f i ^ 2 - 2 * ((∑ j in s, f j) / (s.card : F)) * f i +
          ((∑ j in s, f j) / (s.card : F)) ^ 2 := by
    intro i _
    ring
  rw [Finset.sum_congr rfl hexp]
  rw [Finset.sum_add_distrib, Finset.sum_sub_distrib, ← Finset.mul_sum,
    Finset.sum_const, nsmul_eq_mul]
  field_simp
  ring

theorem fvar_nonneg {ι : Type} {F : Type} [LinearOrderedField F]
    (s : Finset ι) (f : ι → F) : 0 ≤ fvar s f := by
  unfold fvar fmean
  apply div_nonneg
  · exact Finset.sum_nonneg fun i _ => sq_nonneg _
  · exact Nat.cast_nonneg _

theorem fvar_le_fmean_sq {ι : Type} {F : Type} [LinearOrderedField F]
    (s : Finset ι) (f : ι → F) (hn : (s.card : F) ≠ 0) :
    fvar s f ≤ fmean s (fun i => f i ^ 2) := by
  rw [fvar_eq_sub s f hn]
  exact sub_le_self _ (sq_nonneg _)

theorem fmean_product {α β : Type} {F : Type} [Field F] (s : Finset α)
    (t : Finset β) (g : α × β → F) :
    fmean (s ×ˢ t) g = fmean s (fun a => fmean t (fun b => g (a, b))) := by
  unfold fmean
  rw [Finset.sum_product, Finset.card_product, ← Finset.sum_div, div_div]
  push_cast
  ring

/-- The deviation array `img - mean(img, axis=2)` sums to zero over all
entries: each pixel's channel deviations cancel. -/
theorem sum_chanDev_zero (img : Image) :
    (∑ p in img.pixels ×ˢ Finset.range img.c,
      chanDev img p.1.1 p.1.2 p.2) = 0 := by
  rw [Finset.sum_product]
  apply Finset.sum_eq_zero
  intro p _
  dsimp only
  unfold chanDev chanMean fmean
  rw [Finset.sum_sub_distrib]
  simp only [Finset.sum_const, Finset.card_range, nsmul_eq_mul]
  have hc : ((img.c : ℚ)) ≠ 0 :=
    Nat.cast_ne_zero.mpr img.cpos.ne'
  field_simp

/-- The source's squared `color_variation` equals the per-pixel channel
variance averaged over all pixels (the deviation array has mean zero, so
its variance is its mean square, and the mean square averages the
per-pixel channel variances). -/
theorem colorVariationSq_eq (img : Image) :
    colorVariationSq img =
      fmean img.pixels
        (fun p => fvar (Finset.range img.c) (fun k => img.pix p.1 p.2 k)) := by
  have hc : ((img.c : ℚ)) ≠ 0 :=
    Nat.cast_ne_zero.mpr img.cpos.ne'
  have hmean0 :
      fmean (img.pixels ×ˢ Finset.range img.c)
        (fun p => chanDev img p.1.1 p.1.2 p.2) = 0 := by
    unfold fmean
    rw [sum_chanDev_zero, zero_div]
  have h1 : colorVariationSq img =
      fmean (img.pixels ×ˢ Finset.range img.c)
        (fun p => (chanDev img p.1.1 p.1.2 p.2 -
          fmean (img.pixels ×ˢ Finset.range img.c)
            (fun q => chanDev img q.1.1 q.1.2 q.2)) ^ 2) := rfl
  rw [h1]
  simp only [hmean0, sub_zero]
  rw [fmean_product img.pixels (Finset.range img.c)
    (fun p => chanDev img p.1.1 p.1.2 p.2 ^ 2)]
  rfl

/-! ## Gate theorems (claims C4, C5) -/

/-- When either half of the smoothed histogram has zero variance, the
symmetry condition fails (numpy's `corrcoef` is NaN and `NaN > -0.3` is
false), and since every return path of `is_xray_image` other than the full
conjunction yields `False`, the verdict is reject. -/
theorem sym_var_zero_not_xray (img : Image)
    (h : symVarFirst img = 0 ∨ symVarSecond img = 0) :
    ¬ is_xray_image img := by
  unfold is_xray_image
  by_cases h1 : (625 : ℚ) < colorVariationSq img
  · simp [h1]
  · by_cases h2 : (30 : ℚ) < edgeIntensity img
    · simp [h1, h2]
    · simp only [if_neg h1, if_neg h2]
      intro hx
      have hsym : symmetryOk img := hx.2.2.2.2.2.1
      unfold symmetryOk at hsym
      rw [if_pos h] at hsym
      exact hsym

theorem gray_imgBlack (i j : ℕ) : gray imgBlack i j = 0 := by
  simp [gray, chanMean, fmean, imgBlack]

theorem hist_imgBlack (k : ℕ) : hist imgBlack k = 0 := by
  unfold hist
  rw [Finset.card_eq_zero, Finset.filter_eq_empty_iff]
  intro p _
  rw [gray_imgBlack]
  unfold inBin binLo
  split_ifs with hk
  · rintro ⟨hle, _⟩
    norm_num at hle
  · rintro ⟨hle, _⟩
    have hge : (0 : ℚ) ≤ (k : ℚ) * (215 / 256) := by positivity
    linarith

theorem smoothedHist_imgBlack (i : ℕ) : smoothedHist imgBlack i = 0 := by
  unfold smoothedHist
  simp [hist_imgBlack]

theorem symVarFirst_imgBlack : symVarFirst imgBlack = 0 := by
  unfold symVarFirst fvar fmean symFirst
  simp [smoothedHist_imgBlack]

/-- C5.  Whenever either half of the smoothed histogram has zero variance
(the symmetry correlation is a division by zero), `is_xray_image` treats
the symmetry condition as failed and rejects. -/
theorem degenerate_symmetry_rejected (img : Image)
    (h : symVarFirst img = 0 ∨ symVarSecond img = 0) :
    ¬ is_xray_image img :=
  sym_var_zero_not_xray img h

/-- C5, witness: the all-black image has an identically zero smoothed
histogram, hence a zero-variance first half, and is rejected. -/
theorem degenerate_symmetry_rejected_witness :
    (symVarFirst imgBlack = 0 ∨ symVarSecond imgBlack = 0) ∧
    ¬ is_xray_image imgBlack :=
  ⟨Or.inl symVarFirst_imgBlack,
    degenerate_symmetry_rejected imgBlack (Or.inl symVarFirst_imgBlack)⟩

/-- The all-black image fails the gate (shared by the request-flow
counterexample below). -/
theorem imgBlack_not_xray : ¬ is_xray_image imgBlack :=
  sym_var_zero_not_xray imgBlack (Or.inl symVarFirst_imgBlack)

/-- C4.  Any multi-channel image whose color variation in the
specification's sense — standard deviation across the image of the
per-pixel cross-channel standard deviation — exceeds 25 is rejected by
`is_xray_image` regardless of its other features: the source's deviation
array has mean zero, so the source's (squared) color variation is the mean
of the per-pixel channel variances, which dominates the spec's variance of
the per-pixel standard deviations; hence the source's early color check
already fires. -/
theorem spec_color_variation_rejects (img : Image) (hc : 2 ≤ img.c)
    (h : 25 < specColorVariation img) : ¬ is_xray_image img := by
  have hcard : 0 < img.pixels.card := by
    unfold Image.pixels
    rw [Finset.card_product, Finset.card_range, Finset.card_range]
    exact Nat.mul_pos img.hpos img.wpos
  have hpix : ((img.pixels.card : ℝ)) ≠ 0 := Nat.cast_ne_zero.mpr hcard.ne'
  have h625 : (625 : ℝ) <
      fvar img.pixels
        (fun p => Real.sqrt
          ((fvar (Finset.range img.c) (fun k => img.pix p.1 p.2 k) : ℚ) : ℝ)) := by
    have := (Real.lt_sqrt (by norm_num : (0 : ℝ) ≤ 25)).mp h
    norm_num at this
    exact this
  have hsq : (fun p : ℕ × ℕ =>
      (Real.sqrt
        ((fvar (Finset.range img.c) (fun k => img.pix p.1 p.2 k) : ℚ) : ℝ)) ^ 2) =
      (fun p : ℕ × ℕ =>
        ((fvar (Finset.range img.c) (fun k => img.pix p.1 p.2 k) : ℚ) : ℝ)) := by
    funext p
    exact Real.sq_sqrt (by exact_mod_cast fvar_nonneg _ _)
  have hle : fvar img.pixels
      (fun p => Real.sqrt
        ((fvar (Finset.range img.c) (fun k => img.pix p.1 p.2 k) : ℚ) : ℝ)) ≤
      ((colorVariationSq img : ℚ) : ℝ) := by
    calc fvar img.pixels _ ≤
        fmean img.pixels (fun p =>
          (Real.sqrt
            ((fvar (Finset.range img.c) (fun k => img.pix p.1 p.2 k) : ℚ) : ℝ)) ^ 2) :=
          fvar_le_fmean_sq _ _ hpix
      _ = fmean img.pixels (fun p =>
            ((fvar (Finset.range img.c) (fun k => img.pix p.1 p.2 k) : ℚ) : ℝ)) := by
          rw [hsq]
      _ = ((fmean img.pixels (fun p =>
            fvar (Finset.range img.c) (fun k => img.pix p.1 p.2 k)) : ℚ) : ℝ) :=
          (fmean_cast _ _).symm
      _ = ((colorVariationSq img : ℚ) : ℝ) := by rw [colorVariationSq_eq]
  have hQ : (625 : ℚ) < colorVariationSq img := by
    have : (625 : ℝ) < ((colorVariationSq img : ℚ) : ℝ) := lt_of_lt_of_le h625 hle
    exact_mod_cast this
  unfold is_xray_image
  simp [hQ]

/-- Population variance over an unordered pair. -/
theorem fvar_pair {ι : Type} [DecidableEq ι] (a b : ι) (hab : a ≠ b)
    (f : ι → ℝ) : fvar {a, b} f = (f a - f b) ^ 2 / 4 := by
  unfold fvar fmean
  rw [Finset.sum_pair hab, Finset.sum_pair hab, Finset.card_pair hab]
  push_cast
  field_simp
  ring

/-- Channel variance of the black pixel of `imgBlue`. -/
theorem imgBlue_chanVar_00 :
    fvar (Finset.range imgBlue.c) (fun k => imgBlue.pix 0 0 k) = 0 := by
  norm_num [fvar, fmean, imgBlue, Finset.sum_range_succ]

/-- Channel variance of the pure-blue pixel of `imgBlue`:
mean 85, squared deviations 7225, 7225, 28900, variance 14450. -/
theorem imgBlue_chanVar_01 :
    fvar (Finset.range imgBlue.c) (fun k => imgBlue.pix 0 1 k) = 14450 := by
  norm_num [fvar, fmean, imgBlue, Finset.sum_range_succ]

/-- The spec-defined color variation of `imgBlue` is
`√(14450/4) ≈ 60.1 > 25`. -/
theorem specColorVariation_imgBlue : 25 < specColorVariation imgBlue := by
  have hpixels : imgBlue.pixels = {((0:ℕ), (0:ℕ)), ((0:ℕ), (1:ℕ))} := by
    decide
  unfold specColorVariation
  rw [hpixels, Real.lt_sqrt (by norm_num),
    fvar_pair ((0:ℕ), (0:ℕ)) ((0:ℕ), (1:ℕ)) (by decide)]
  dsimp only
  rw [imgBlue_chanVar_00, imgBlue_chanVar_01]
  have ha : Real.sqrt ((14450 : ℚ) : ℝ) ^ 2 = ((14450 : ℚ) : ℝ) :=
    Real.sq_sqrt (by norm_num)
  simp only [Real.sqrt_zero, Rat.cast_zero]
  rw [zero_sub, neg_sq, ha]
  norm_num

/-- C4, witness: `imgBlue` is multi-channel, its spec-defined color
variation exceeds 25, and the gate rejects it. -/
theorem spec_color_variation_rejects_witness :
    2 ≤ imgBlue.c ∧ 25 < specColorVariation imgBlue ∧
    ¬ is_xray_image imgBlue :=
  ⟨by norm_num [imgBlue], specColorVariation_imgBlue,
    spec_color_variation_rejects imgBlue (by norm_num [imgBlue])
      specColorVariation_imgBlue⟩

/-! ## Request-flow theorems (claim C1) -/

/-- C1, counterexample.  A fresh Free identity uploads the all-black image:
the gate rejects it (`Outcome.gateRejected`), yet the stored usage count
for `"u"` has already been incremented from 0 to 1 — refuting "if the
authenticity gate rejects an upload, no usage increment has been recorded
for that request". -/
theorem gate_reject_after_increment :
    (main_run 0 imgBlack mEdema 0 sFree0 dbOk0).1.outcome =
      Outcome.gateRejected ∧
    (main_run 0 imgBlack mEdema 0 sFree0 dbOk0).2.2.users "u" =
      some (UserRow.mk 1 0 false none) := by
  have hg := imgBlack_not_xray
  unfold main_run
  norm_num [check_usage_limit, check_premium_subscription, increment_usage,
    get_user_usage_from_db, update_user_usage_in_db, sFree0, dbOk0, hg,
    FREE_USAGE_LIMIT]

/-- C1, amended.  For every request: if the quota check rejects, the store
is untouched (no persistence increment) and neither classifier is invoked
— this holds for every image, the quota branch never inspects it.  And if
the upload fails the authenticity gate, neither classifier is invoked, but
the gate runs only after the usage increment, so on a quota-allowed
gate-rejected request the store already carries the increment attempt. -/
theorem quota_shortcircuits_gate_does_not (now : ℤ) (img : Image)
    (multiOut : Fin 5 → ℚ) (edemaOut : ℚ) (s : SessionState) (db : Db) :
    ((check_usage_limit now s).1 = false →
      (main_run now img multiOut edemaOut s db).2.2 = db ∧
      (main_run now img multiOut edemaOut s db).1.multiInvoked = false ∧
      (main_run now img multiOut edemaOut s db).1.edemaInvoked = false) ∧
    (¬ is_xray_image img →
      (main_run now img multiOut edemaOut s db).1.multiInvoked = false ∧
      (main_run now img multiOut edemaOut s db).1.edemaInvoked = false ∧
      ((check_usage_limit now s).1 = true →
        (main_run now img multiOut edemaOut s db).2.2 =
          (increment_usage none (check_usage_limit now s).2 db).2.2)) := by
  constructor
  · intro hq
    unfold main_run
    simp [hq]
  · intro hgate
    unfold main_run
    by_cases hq : (check_usage_limit now s).1 = false
    · simp [hq]
    · simp only [Bool.not_eq_false] at hq
      by_cases hi :
          (increment_usage none (check_usage_limit now s).2 db).1 = false
      · simp [hq, hi]
      · simp only [Bool.not_eq_false] at hi
        simp [hq, hi, hgate]

/-- C1, witness for the amended theorem, exercising both conjuncts
non-vacuously: the exhausted-quota fixture `sUsed6` is rejected with the
store untouched and no classifier invoked (for an upload that would also
fail the gate — the quota branch never looks at it), and the fresh fixture
`sFree0` passes the quota check, is gate-rejected, and leaves the store
carrying the increment. -/
theorem quota_shortcircuits_gate_does_not_witness :
    ((check_usage_limit 0 sUsed6).1 = false ∧
     (main_run 0 imgBlack mEdema 0 sUsed6 dbOk0).2.2 = dbOk0 ∧
     (main_run 0 imgBlack mEdema 0 sUsed6 dbOk0).1.multiInvoked = false ∧
     (main_run 0 imgBlack mEdema 0 sUsed6 dbOk0).1.edemaInvoked = false) ∧
    (¬ is_xray_image imgBlack ∧
     (check_usage_limit 0 sFree0).1 = true ∧
     (main_run 0 imgBlack mEdema 0 sFree0 dbOk0).1.multiInvoked = false ∧
     (main_run 0 imgBlack mEdema 0 sFree0 dbOk0).2.2 =
       (increment_usage none (check_usage_limit 0 sFree0).2 dbOk0).2.2) := by
  have hq6 : (check_usage_limit 0 sUsed6).1 = false := by decide
  have hq0 : (check_usage_limit 0 sFree0).1 = true := by decide
  have h6 :=
    (quota_shortcircuits_gate_does_not 0 imgBlack mEdema 0 sUsed6 dbOk0).1 hq6
  have h0 :=
    (quota_shortcircuits_gate_does_not 0 imgBlack mEdema 0 sFree0 dbOk0).2
      imgBlack_not_xray
  exact ⟨⟨hq6, h6.1, h6.2.1, h6.2.2⟩,
    ⟨imgBlack_not_xray, hq0, h0.1, h0.2.2 hq0⟩⟩

end DiagnoAI
